import Mathlib

/-!
Verification of the zarastock availability-normalization and notification
pipeline, shallowly embedded from the Python sources
(`zara_stock_checker.py`, `run_and_notify.py`, `zara_stock_checker_browser.py`).

Pure decision logic (availability normalization, policy knobs, size-mapping
fallback, change tracking, dispatcher control flow, fallback-chain order,
dead-driver detection) is translated into executable Lean definitions;
network calls, HTML parsing, and per-recipient delivery outcomes appear as
explicit parameters (oracles), so every control-flow decision made by the
code is visible in the embedding.

String primitives: Python's `str.lower()` and string comparison (used by
`sorted(...)`) are modelled by structurally recursive functions over the
character list (`pyLower`, `pyStrLe`), since the statuses and size labels
handled by this program are ASCII; Python compares strings lexicographically
by code point, which is exactly `charsLe`.
-/

namespace ZaraStock

/-- ASCII-faithful model of Python's `str.lower()`: lowercase each
character. -/
def pyLower (s : String) : String := String.mk (s.data.map Char.toLower)

/-- Lexicographic code-point comparison of character lists; this is the
order Python's `sorted` uses on strings. -/
def charsLe : List Char → List Char → Bool
  | [], _ => true
  | _ :: _, [] => false
  | a :: as, b :: bs => if a = b then charsLe as bs else decide (a < b)

/-- Python's `<=` on strings (code-point lexicographic). -/
def pyStrLe (a b : String) : Bool := charsLe a.data b.data

/-- The alphabetical order on strings as a proposition, for sortedness
statements. -/
def alphaLe (a b : String) : Prop := pyStrLe a b = true

instance : DecidableRel alphaLe :=
  fun a b => inferInstanceAs (Decidable (pyStrLe a b = true))

/-- Model of Python's `sorted` on a list of strings. -/
def pySorted (l : List String) : List String := List.insertionSort alphaLe l

/-- One entry of the API's `skusAvailability` list:
`{sku: integer, availability: string}`. -/
structure SkuInfo where
  sku : Nat
  availability : String
deriving DecidableEq

/-- Embeds the per-SKU availability test of `_check_stock_via_api`
(`zara_stock_checker.py` lines 388-404): the status string is lowercased
(`sku_info.get('availability', '').lower()`), then
`in_stock`/`low_on_stock` count as available, `out_of_stock` does not,
and any other (unknown) status also does not. -/
def isAvailableStatus (status : String) : Bool :=
  let availability := pyLower status
  if availability == "in_stock" || availability == "low_on_stock" then true
  else if availability == "out_of_stock" then false
  else false

/-- The SKU availability predicate used throughout the loop. -/
def skuAvailable (s : SkuInfo) : Bool := isAvailableStatus s.availability

/-- The canonical positional size-name sequence of `_check_stock_via_api`
(line 368): letter sizes first, then numeric sizes. -/
def sizeNames : List String :=
  ["XS", "S", "M", "L", "XL", "XXL", "XXXL",
   "4", "6", "8", "10", "12", "14", "16", "18"]

/-- The label the positional fallback assigns at 0-based position `i`:
`size_names[i]` while in range, otherwise `f"Size {i+1}"`
(lines 372-377). -/
def positionalLabel (i : Nat) : String :=
  if i < sizeNames.length then sizeNames.getD i ""
  else "Size " ++ toString (i + 1)

/-- Embeds the positional size-mapping fallback of `_check_stock_via_api`
(lines 362-378): sort the SKU ids ascending
(`sorted_skus = sorted([s['sku'] for s in skus_availability])`), then map
the i-th smallest SKU to `positionalLabel i`
(`for i, sku in enumerate(sorted_skus)`). -/
def fallbackSizeMapping (skuIds : List Nat) : List (Nat × String) :=
  let sortedSkus := List.insertionSort (· ≤ ·) skuIds
  sortedSkus.enum.map fun p => (p.2, positionalLabel p.1)

/-- `size_mapping.get(sku_id, f"SKU {sku_id}")` (line 391). -/
def sizeLabel (mapping : Nat → Option String) (skuId : Nat) : String :=
  match mapping skuId with
  | some label => label
  | none => "SKU " ++ toString skuId

/-- Looking a SKU id up in an association-list mapping (Python dict). -/
def lookupMapping (pairs : List (Nat × String)) : Nat → Option String :=
  fun skuId => pairs.lookup skuId

/-- Embeds the main availability loop of `_check_stock_via_api`
(lines 381-413): starting from `available_sizes = []`, `in_stock = False`,
each SKU whose status is available appends its size label and sets
`in_stock = True`. -/
def collectAvailable (mapping : Nat → Option String) (skus : List SkuInfo) :
    List String × Bool :=
  skus.foldl
    (fun acc skuInfo =>
      if isAvailableStatus skuInfo.availability then
        (acc.1 ++ [sizeLabel mapping skuInfo.sku], true)
      else acc)
    ([], false)

/-- The two policy knobs read from the configuration (lines 416-417):
`notify_only_all_sizes` (default `False`) and `min_sizes_in_stock`
(default `0`). -/
structure Policy where
  notify_only_all_sizes : Bool
  min_sizes_in_stock : Nat
deriving DecidableEq

/-- The policy with both knobs at their configuration defaults. -/
def defaultPolicy : Policy := ⟨false, 0⟩

/-- Embeds the policy override of `_check_stock_via_api` (lines 419-428):
`if notify_only_all_sizes and len(available_sizes) < len(skus_availability):
in_stock = False elif min_sizes_in_stock > 0 and len(available_sizes) <
min_sizes_in_stock: in_stock = False`. -/
def applyPolicy (policy : Policy) (totalSkus availCount : Nat)
    (baseline : Bool) : Bool :=
  if policy.notify_only_all_sizes && decide (availCount < totalSkus) then false
  else if decide (policy.min_sizes_in_stock > 0) &&
          decide (availCount < policy.min_sizes_in_stock) then false
  else baseline

/-- The normalized outcome: `in_stock` and `available_sizes` as placed in
the result dictionary. -/
structure NormResult where
  in_stock : Bool
  available_sizes : List String
deriving DecidableEq

/-- Embeds the API-path normalization end to end (lines 381-428 for the
loop and policy, line 521 for `'available_sizes': sorted(available_sizes)`
in the result dictionary). -/
def normalize (skus : List SkuInfo) (mapping : Nat → Option String)
    (policy : Policy) : NormResult :=
  let collected := collectAvailable mapping skus
  let inStock := applyPolicy policy skus.length collected.1.length collected.2
  { in_stock := inStock, available_sizes := pySorted collected.1 }

/-- The everywhere-empty size mapping (no page-scraped mapping and no
fallback), used to instantiate universally quantified statements. -/
def noMapping : Nat → Option String := fun _ => none

/-- The signals `parse_stock_info` has gathered by line 1055 of
`zara_stock_checker.py`: the deduplicated size labels in the order they
were found in the document, the `out_of_stock_detected` flag (lines
1018-1028) and the `few_items_left` flag (lines 1030-1053). -/
structure HtmlParseState where
  sizes : List String
  out_of_stock_detected : Bool
  few_items_left : Bool
deriving DecidableEq

/-- Embeds the final availability assembly of `parse_stock_info`
(lines 1055-1088): `has_available_sizes = len(sizes) > 0`; an explicit
out-of-stock detection clears the sizes and forces out of stock; a
`few_items_left` signal with no parsed sizes forces in stock; the result's
`available_sizes` is `[s['size'] for s in sizes]`, in extraction order. -/
def parse_stock_info_result (st : HtmlParseState) : NormResult :=
  if st.out_of_stock_detected then
    { in_stock := false, available_sizes := [] }
  else if st.few_items_left && decide (st.sizes.length = 0) then
    { in_stock := true, available_sizes := st.sizes }
  else
    { in_stock := decide (st.sizes.length > 0), available_sizes := st.sizes }

/-- The per-reference change record kept by `monitor_products`
(`last_notified[url] = {'in_stock': bool, 'time': float}`, line 1355);
time is modelled in integer seconds. -/
structure ChangeRecord where
  in_stock : Bool
  time : Int
deriving DecidableEq

/-- Embeds the notification decision of `monitor_products`
(`zara_stock_checker.py` lines 1320-1358) for one check of one reference:
`state_changed = (last_in_stock is None) or (last_in_stock !=
current_in_stock)`; `should_notify_daily = current_time - last_notify_time
> 86400`; on `state_changed or should_notify_daily` notify and set the
record to the current state and time, otherwise do nothing. Returns
(notified?, record afterwards). -/
def trackerStep (last : Option ChangeRecord) (currentInStock : Bool)
    (now : Int) : Bool × Option ChangeRecord :=
  let lastNotifyTime : Int :=
    match last with
    | some r => r.time
    | none => 0
  let stateChanged : Bool :=
    match last with
    | none => true
    | some r => r.in_stock != currentInStock
  let shouldNotifyDaily : Bool := decide (now - lastNotifyTime > 86400)
  if stateChanged || shouldNotifyDaily then
    (true, some { in_stock := currentInStock, time := now })
  else
    (false, last)

/-- Outcome of one Telegram `sendMessage` call for one chat id:
the HTTP request (or `raise_for_status`) raises, or the API answers with
`ok = false`, or with `ok = true`. -/
inductive DeliveryOutcome
  | raises
  | okFalse
  | okTrue
deriving DecidableEq

/-- One delivery attempt as the code sees it: `requests.post(...)` plus
`raise_for_status()` either raises or produces a response whose `ok` field
is the returned Bool. -/
def attemptSend (outcome : DeliveryOutcome) : Except String Bool :=
  match outcome with
  | .raises => .error "requests.post raised"
  | .okFalse => .ok false
  | .okTrue => .ok true

/-- Embeds the per-recipient delivery loop shared by
`zara_stock_checker.send_telegram_notification` (lines 1266-1296) and
`run_and_notify.send_telegram_notification` (lines 568-592): iterate over
the chat ids, attempt each send inside its own try/except so that a raised
exception is caught and the loop continues, and count the sends whose
response has `ok = true`. Returns (success_count, chat ids attempted, in
order). -/
def sendLoop (deliver : String → DeliveryOutcome) (chatIds : List String) :
    Nat × List String :=
  chatIds.foldl
    (fun acc cid =>
      match attemptSend (deliver cid) with
      | .ok true => (acc.1 + 1, acc.2 ++ [cid])
      | .ok false => (acc.1, acc.2 ++ [cid])
      | .error _ => (acc.1, acc.2 ++ [cid]))
    (0, [])

/-- The Telegram configuration fields the dispatchers read:
`enabled`, `bot_token`, `chat_id`, `chat_ids`. -/
structure TelegramConfig where
  enabled : Bool
  bot_token : String
  chat_id : String
  chat_ids : List String
deriving DecidableEq

/-- Builds the recipient list from the configuration as both dispatchers
do: `chat_id` first if non-empty, then the `chat_ids` list, then
deduplicate (`list(set(chat_ids))`; Python's set iteration order is
unspecified, modelled here as first-occurrence order). -/
def buildChatIds (cfg : TelegramConfig) : List String :=
  ((if cfg.chat_id == "" then [] else [cfg.chat_id]) ++ cfg.chat_ids).eraseDups

/-- The normalized check outcome consumed by the dispatchers and produced
by `check_stock` (§3 StockResult): the fields that drive control flow. -/
structure StockResult where
  url : String
  name : Option String
  price : Option String
  in_stock : Bool
  available_sizes : List String
  error : Option String
deriving DecidableEq

/-- Embeds `zara_stock_checker.send_telegram_notification`
(lines 1160-1304): return with no sends if Telegram is disabled, if the
bot token is missing, if the result carries an `error` field, or if no
chat ids are configured; otherwise run the delivery loop over the built
chat-id list. Returns (success_count, chat ids actually contacted). -/
def send_telegram_notification (cfg : TelegramConfig) (info : StockResult)
    (deliver : String → DeliveryOutcome) : Nat × List String :=
  if !cfg.enabled then (0, [])
  else if cfg.bot_token == "" then (0, [])
  else if info.error.isSome then (0, [])
  else
    let chatIds := buildChatIds cfg
    if chatIds.isEmpty then (0, [])
    else sendLoop deliver chatIds

/-- Embeds `run_and_notify.send_telegram_notification` (lines 481-600):
same as the polling-loop dispatcher, with the additional
`skip_nostock_notification` guard (lines 499-504) after the error guard. -/
def rn_send_telegram_notification (cfg : TelegramConfig)
    (skipNoStock : Bool) (info : StockResult)
    (deliver : String → DeliveryOutcome) : Nat × List String :=
  if !cfg.enabled then (0, [])
  else if cfg.bot_token == "" then (0, [])
  else if info.error.isSome then (0, [])
  else if skipNoStock && !info.in_stock then (0, [])
  else
    let chatIds := buildChatIds cfg
    if chatIds.isEmpty then (0, [])
    else sendLoop deliver chatIds

/-- The error result built by `check_stock` when every fetch strategy has
failed (`zara_stock_checker.py` lines 1138-1144, identical dictionary in
`run_and_notify.py` lines 473-479). -/
def failedFetchResult (url : String) : StockResult :=
  { url := url, name := none, price := none, in_stock := false,
    available_sizes := [],
    error := some "Failed to fetch page - may be blocked by bot protection" }

/-- Embeds `zara_stock_checker.check_stock` (lines 1117-1158) over oracles
for the strategy outcomes: the API strategy result (`None` on any API
failure), the HTML fetch (`None` when `fetch_product_page` fails), and the
HTML parser. Returns the result together with how many times each strategy
ran (API calls, HTML fetch calls). -/
def check_stock (url : String) (apiResult : Option StockResult)
    (htmlFetch : Option String) (parse : String → StockResult) :
    StockResult × Nat × Nat :=
  match apiResult with
  | some r => (r, 1, 0)
  | none =>
    match htmlFetch with
    | none => (failedFetchResult url, 1, 1)
    | some html => (parse html, 1, 1)

/-- Embeds `run_and_notify.check_stock` (lines 456-479): the API strategy
only, with the same error result when it fails. Returns the result and
the number of API calls made. -/
def rn_check_stock (url : String) (apiResult : Option StockResult) :
    StockResult × Nat :=
  match apiResult with
  | some r => (r, 1)
  | none => (failedFetchResult url, 1)

/-- Embeds the HTTP-status gate of `_check_stock_via_api` (lines 326-329):
`if response.status_code != 200: return None`; only a 200 response
proceeds to payload parsing (whose outcome is the `parsed` oracle). -/
def apiStatusGate (statusCode : Nat) (parsed : Option StockResult) :
    Option StockResult :=
  if statusCode ≠ 200 then none else parsed

/-- The dead-driver message indicators of
`zara_stock_checker_browser._is_dead_driver_error` (lines 535-545). -/
def deadDriverIndicators : List String :=
  ["no such window",
   "target window already closed",
   "web view not found",
   "disconnected",
   "not connected to devtools",
   "devtools"]

/-- Python's `needle in hay` substring test over character lists. -/
def charsContain (needle : List Char) : List Char → Bool
  | [] => needle.isEmpty
  | c :: rest => needle.isPrefixOf (c :: rest) || charsContain needle rest

/-- Python's `needle in hay` on strings. -/
def strContains (hay needle : String) : Bool :=
  charsContain needle.data hay.data

/-- Embeds `_is_dead_driver_error` (lines 535-545): lowercase the error
message and test whether any fixed indicator occurs in it as a
substring. -/
def is_dead_driver_error (msg : String) : Bool :=
  deadDriverIndicators.any fun x => strContains (pyLower msg) x

/-- Embeds the `_safe` wrapper of `zara_stock_checker_browser.py`
(lines 585-602), starting from a valid driver handle. `run n` is the
wrapped driver operation executed against the handle after `n`
recreations. Attempt 0 runs the operation; on an exception matching the
dead-driver indicators the handle is recreated once
(`_ensure_driver_valid(skip_check=True)`) and attempt 1 reruns the
operation, whose outcome — success or any exception — is final. A
non-matching exception on attempt 0 is re-raised with no recreation.
Returns (final outcome, number of handle recreations). -/
def safe_run (run : Nat → Except String α) : Except String α × Nat :=
  match run 0 with
  | .ok a => (.ok a, 0)
  | .error e =>
    if is_dead_driver_error e then (run 1, 1)
    else (.error e, 0)

/-- A concrete delivery oracle for the three-recipient dispatcher
scenario: the send to chat id "B" raises, the other sends succeed. -/
def threeRecipientDeliver : String → DeliveryOutcome :=
  fun cid => if cid == "B" then .raises else .okTrue

/-- A concrete successful check result (no error), for instantiating the
dispatcher statements. -/
def sampleInStockResult : StockResult :=
  { url := "https://www.zara.com/uk/en/coat-p1.html", name := some "Coat",
    price := some "£89.95", in_stock := true, available_sizes := ["M"],
    error := none }

/-- The driver operations `fetch_product_page` wraps in `_safe`
(`zara_stock_checker_browser.py` lines 617, 621, 639), as oracles indexed
by the handle incarnation they run against: incarnation 0 is the initial
handle and each recreation increments the incarnation. -/
structure BrowserOracles where
  setTimeoutRun : Nat → Except String Unit
  getRun : Nat → Except String Unit
  pageSourceRun : Nat → Except String String

/-- `_safe` (lines 585-602) with the handle-incarnation counter threaded
through: starting from a valid handle of incarnation `k`, run the
operation; on a dead-driver failure recreate the handle (incarnation
`k + 1`) and rerun once, that second outcome being final; surface any
other failure untouched. Returns (outcome, incarnation afterwards). -/
def safe_run_from (run : Nat → Except String α) (k : Nat) :
    Except String α × Nat :=
  match run k with
  | .ok a => (.ok a, k)
  | .error e =>
    if is_dead_driver_error e then (run (k + 1), k + 1) else (.error e, k)

/-- One pass of the local-Selenium body of `fetch_product_page`
(`zara_stock_checker_browser.py` lines 615-664):
`_safe(set_page_load_timeout)`, then `_safe(d.get)`, then
`_safe(d.page_source)`, then the short-page check (line 651-652, raising
a message that matches no dead-driver indicator). An exception escaping a
`_safe` call that matches the dead-driver indicators reaches, via the
inner handlers (lines 623-631, 641-649) or directly (outer handler, lines
657-661), the recreate-and-retry continuation `onDead`; any other
exception makes the fetch return `None` (lines 663-664). -/
def fetch_page_go (o : BrowserOracles) (k : Nat)
    (onDead : Nat → Option String × Nat) : Option String × Nat :=
  match safe_run_from o.setTimeoutRun k with
  | (.error e, k1) =>
    if is_dead_driver_error e then onDead k1 else (none, k1)
  | (.ok _, k1) =>
    match safe_run_from o.getRun k1 with
    | (.error e, k2) =>
      if is_dead_driver_error e then onDead k2 else (none, k2)
    | (.ok _, k2) =>
      match safe_run_from o.pageSourceRun k2 with
      | (.error e, k3) =>
        if is_dead_driver_error e then onDead k3 else (none, k3)
      | (.ok src, k3) =>
        if src.length < 100 then
          if is_dead_driver_error "Page source is empty or too short" then
            onDead k3
          else (none, k3)
        else (some src, k3)

/-- `fetch_product_page(url)` on the local-Selenium path (lines 604-664),
called as every caller does with `retry = True`: a dead-driver error
escaping `_safe` triggers `_ensure_driver_valid(skip_check=True)` — one
more handle recreation — and a rerun of the whole fetch with
`retry = False`, inside which a dead-driver error escaping `_safe` makes
the fetch return `None` with no further recreation. Returns the fetched
page (or `None`) together with the final handle incarnation, i.e. the
total number of handle recreations performed. -/
def fetch_product_page (o : BrowserOracles) : Option String × Nat :=
  fetch_page_go o 0 fun k => fetch_page_go o (k + 1) fun k2 => (none, k2)

/-- A page source comfortably above the 100-character minimum. -/
def longPageSource : String := String.mk (List.replicate 200 'a')

/-- Oracles under which the page-load operation dies with a dead-driver
message against every handle incarnation. -/
def persistentlyDeadOracles : BrowserOracles :=
  { setTimeoutRun := fun _ => .ok ()
    getRun := fun _ => .error "no such window"
    pageSourceRun := fun _ => .ok longPageSource }

/-- Oracles under which the page load dies once with a dead-driver
message and succeeds against the recreated handle. -/
def flakyThenOkOracles : BrowserOracles :=
  { setTimeoutRun := fun _ => .ok ()
    getRun := fun k => if k = 0 then .error "no such window" else .ok ()
    pageSourceRun := fun _ => .ok longPageSource }

end ZaraStock

namespace ZaraStock

/-- Helper: the availability loop, generalized over the fold accumulator. -/
theorem collectAvailable_go (mapping : Nat → Option String)
    (skus : List SkuInfo) (acc : List String) (flag : Bool) :
    skus.foldl
      (fun acc skuInfo =>
        if isAvailableStatus skuInfo.availability then
          (acc.1 ++ [sizeLabel mapping skuInfo.sku], true)
        else acc)
      (acc, flag) =
    (acc ++ (skus.filter skuAvailable).map (fun s => sizeLabel mapping s.sku),
     flag || skus.any skuAvailable) := by
  induction skus generalizing acc flag with
  | nil => simp
  | cons head tail ih =>
    by_cases h : isAvailableStatus head.availability
    · simp [List.foldl_cons, h, ih, skuAvailable, List.filter_cons]
    · simp [List.foldl_cons, h, ih, skuAvailable, List.filter_cons]

/-- Helper: closed form of `collectAvailable`. -/
theorem collectAvailable_eq (mapping : Nat → Option String)
    (skus : List SkuInfo) :
    collectAvailable mapping skus =
    ((skus.filter skuAvailable).map (fun s => sizeLabel mapping s.sku),
     skus.any skuAvailable) := by
  unfold collectAvailable
  rw [collectAvailable_go]
  simp

/-- Helper: the sorted `available_sizes` of a normalized result. -/
theorem normalize_available_sizes (skus : List SkuInfo)
    (mapping : Nat → Option String) (policy : Policy) :
    (normalize skus mapping policy).available_sizes =
    pySorted ((skus.filter skuAvailable).map fun s => sizeLabel mapping s.sku) := by
  unfold normalize
  rw [collectAvailable_eq]

/-- Helper: the `in_stock` field of a normalized result. -/
theorem normalize_in_stock (skus : List SkuInfo)
    (mapping : Nat → Option String) (policy : Policy) :
    (normalize skus mapping policy).in_stock =
    applyPolicy policy skus.length (skus.filter skuAvailable).length
      (skus.any skuAvailable) := by
  unfold normalize
  rw [collectAvailable_eq]
  simp

/-- Helper: with both knobs at their defaults the policy is the
identity. -/
theorem applyPolicy_default (totalSkus availCount : Nat) (baseline : Bool) :
    applyPolicy defaultPolicy totalSkus availCount baseline = baseline := by
  simp [applyPolicy, defaultPolicy]

/-- Helper: `pySorted` permutes its input. -/
theorem pySorted_perm (l : List String) : (pySorted l).Perm l :=
  List.perm_insertionSort alphaLe l

/-- C1: with no policy override, a SKU counts as available iff its
lowercased status is `in_stock` or `low_on_stock` (`out_of_stock` and
unrecognized statuses are not available); `in_stock` holds iff some SKU is
available; an all-`out_of_stock` list yields `in_stock = false` with empty
`available_sizes`, and a list with an available SKU yields
`in_stock = true` with non-empty `available_sizes`. -/
theorem c1_normalizer_availability (skus : List SkuInfo)
    (mapping : Nat → Option String) :
    (∀ status : String, isAvailableStatus status =
      ((pyLower status == "in_stock") || (pyLower status == "low_on_stock"))) ∧
    (normalize skus mapping defaultPolicy).in_stock = skus.any skuAvailable ∧
    ((∀ s ∈ skus, s.availability = "out_of_stock") →
      (normalize skus mapping defaultPolicy).in_stock = false ∧
      (normalize skus mapping defaultPolicy).available_sizes = []) ∧
    ((∃ s ∈ skus, skuAvailable s = true) →
      (normalize skus mapping defaultPolicy).in_stock = true ∧
      (normalize skus mapping defaultPolicy).available_sizes ≠ []) := by
  refine ⟨?_, ?_, ?_, ?_⟩
  · intro status
    unfold isAvailableStatus
    by_cases h : (pyLower status == "in_stock") || (pyLower status == "low_on_stock")
    · simp [h]
    · simp only [h, if_false]
      by_cases h2 : pyLower status == "out_of_stock" <;> simp [h2, h]
  · rw [normalize_in_stock, applyPolicy_default]
  · intro hall
    have hany : skus.any skuAvailable = false := by
      rw [List.any_eq_false]
      intro s hs
      unfold skuAvailable
      rw [hall s hs]
      decide
    have hfilter : skus.filter skuAvailable = [] := by
      rw [List.filter_eq_nil_iff]
      intro s hs
      unfold skuAvailable
      rw [hall s hs]
      decide
    constructor
    · rw [normalize_in_stock, applyPolicy_default, hany]
    · rw [normalize_available_sizes, hfilter]
      rfl
  · intro hex
    have hany : skus.any skuAvailable = true := by
      rw [List.any_eq_true]
      obtain ⟨s, hs, h⟩ := hex
      exact ⟨s, hs, h⟩
    constructor
    · rw [normalize_in_stock, applyPolicy_default, hany]
    · rw [normalize_available_sizes]
      intro hempty
      have hlen := (pySorted_perm
        ((skus.filter skuAvailable).map fun s => sizeLabel mapping s.sku)).length_eq
      rw [hempty] at hlen
      obtain ⟨s, hs, h⟩ := List.any_eq_true.mp hany
      have : s ∈ skus.filter skuAvailable := List.mem_filter.mpr ⟨hs, h⟩
      have hne : (skus.filter skuAvailable).map (fun s => sizeLabel mapping s.sku) ≠ [] := by
        simp only [ne_eq, List.map_eq_nil_iff]
        intro hnil
        rw [hnil] at this
        exact List.not_mem_nil s this
      exact hne (List.eq_nil_of_length_eq_zero hlen.symm)

/-- C1 witness: the theorem applied to an all-`out_of_stock` list and to a
list containing an (upper-cased) in-stock SKU. -/
theorem c1_witness :
    (normalize [⟨1, "out_of_stock"⟩, ⟨2, "out_of_stock"⟩] noMapping defaultPolicy).in_stock = false ∧
    (normalize [⟨1, "out_of_stock"⟩, ⟨2, "out_of_stock"⟩] noMapping defaultPolicy).available_sizes = [] ∧
    (normalize [⟨1, "out_of_stock"⟩, ⟨2, "IN_STOCK"⟩] noMapping defaultPolicy).in_stock = true ∧
    (normalize [⟨1, "out_of_stock"⟩, ⟨2, "IN_STOCK"⟩] noMapping defaultPolicy).available_sizes ≠ [] := by
  have h1 := c1_normalizer_availability
    [⟨1, "out_of_stock"⟩, ⟨2, "out_of_stock"⟩] noMapping
  have h2 := c1_normalizer_availability
    [⟨1, "out_of_stock"⟩, ⟨2, "IN_STOCK"⟩] noMapping
  have hex : ∃ s ∈ ([⟨1, "out_of_stock"⟩, ⟨2, "IN_STOCK"⟩] : List SkuInfo),
      skuAvailable s = true := ⟨⟨2, "IN_STOCK"⟩, by decide, by decide⟩
  exact ⟨(h1.2.2.1 (by decide)).1, (h1.2.2.1 (by decide)).2,
    (h2.2.2.2 hex).1, (h2.2.2.2 hex).2⟩

/-- C2: the continuous-polling Change Tracker notifies on the first check
of an unseen reference, notifies exactly once on a flip of `in_stock`,
notifies on an unchanged state once more than 24 hours have passed since
the last notification, and otherwise neither notifies nor touches the
record. -/
theorem c2_change_tracker (r : ChangeRecord) (c : Bool) (now now2 : Int) :
    trackerStep none c now = (true, some ⟨c, now⟩) ∧
    (r.in_stock ≠ c →
      (trackerStep (some r) c now).1 = true ∧
      (trackerStep (some r) c now).2 = some ⟨c, now⟩) ∧
    (r.in_stock = c → now - r.time > 86400 →
      (trackerStep (some r) c now).1 = true) ∧
    (r.in_stock = c → now - r.time ≤ 86400 →
      trackerStep (some r) c now = (false, some r)) ∧
    (r.in_stock ≠ c → now2 - now ≤ 86400 →
      (trackerStep (trackerStep (some r) c now).2 c now2).1 = false) := by
  refine ⟨?_, ?_, ?_, ?_, ?_⟩
  · simp [trackerStep]
  · intro hne
    have hb : (r.in_stock != c) = true := by
      simpa [bne_iff_ne] using hne
    constructor <;> simp [trackerStep, hb]
  · intro _ ht
    simp [trackerStep, ht]
  · intro heq ht
    have hb : (r.in_stock != c) = false := by
      simpa [bne_eq_false_iff_eq] using heq
    have hd : ¬ now - r.time > 86400 := by omega
    simp [trackerStep, hb, hd]
  · intro hne ht
    have hb : (r.in_stock != c) = true := by
      simpa [bne_iff_ne] using hne
    have hd : ¬ now2 - now > 86400 := by omega
    simp [trackerStep, hb, hd]

/-- C2 witness: the theorem applied to a first check, a flip, a heartbeat
after more than 24 hours, an unchanged check within 24 hours, and a flip
followed by an identical check within 24 hours. -/
theorem c2_witness :
    trackerStep none true 100 = (true, some ⟨true, 100⟩) ∧
    (trackerStep (some ⟨false, 0⟩) true 100).1 = true ∧
    (trackerStep (some ⟨true, 0⟩) true 86500).1 = true ∧
    trackerStep (some ⟨true, 100⟩) true 150 = (false, some ⟨true, 100⟩) ∧
    (trackerStep (trackerStep (some ⟨false, 0⟩) true 100).2 true 150).1 = false := by
  have h := c2_change_tracker ⟨false, 0⟩ true 100 150
  have h2 := c2_change_tracker ⟨true, 0⟩ true 86500 150
  have h3 := c2_change_tracker ⟨true, 100⟩ true 150 150
  exact ⟨h.1, (h.2.1 (by decide)).1, h2.2.2.1 rfl (by decide),
    h3.2.2.2.1 rfl (by decide), h.2.2.2.2 (by decide) (by decide)⟩

/-- C3: the policy knobs are applied in order: `notify_only_all_sizes`
with fewer than all SKUs available forces `in_stock = false`; otherwise a
positive `min_sizes_in_stock` with fewer than that many available SKUs
forces `in_stock = false`; and `available_sizes` always lists exactly the
available SKUs. -/
theorem c3_policy_knobs (skus : List SkuInfo) (mapping : Nat → Option String)
    (policy : Policy) :
    (policy.notify_only_all_sizes = true →
      (skus.filter skuAvailable).length < skus.length →
      (normalize skus mapping policy).in_stock = false) ∧
    ((policy.notify_only_all_sizes = false ∨
        ¬ (skus.filter skuAvailable).length < skus.length) →
      0 < policy.min_sizes_in_stock →
      (skus.filter skuAvailable).length < policy.min_sizes_in_stock →
      (normalize skus mapping policy).in_stock = false) ∧
    (normalize skus mapping policy).available_sizes.length =
      (skus.filter skuAvailable).length := by
  refine ⟨?_, ?_, ?_⟩
  · intro hknob hlt
    rw [normalize_in_stock]
    simp [applyPolicy, hknob, hlt]
  · intro hfirst hmin hlt
    rw [normalize_in_stock]
    have hcond : (policy.notify_only_all_sizes &&
        decide ((skus.filter skuAvailable).length < skus.length)) = false := by
      rcases hfirst with h | h
      · simp [h]
      · simp [h]
    simp only [applyPolicy, hcond, Bool.false_eq_true, if_false]
    simp [hmin, hlt]
  · rw [normalize_available_sizes]
    rw [(pySorted_perm _).length_eq, List.length_map]

/-- C3 witness: with `notify_only_all_sizes = true`, four SKUs of which
three are in stock and one is out of stock normalize to
`in_stock = false` while `available_sizes` is non-empty; with
`min_sizes_in_stock = 3` and only two available SKUs the result is also
out of stock. -/
theorem c3_witness :
    (normalize [⟨1, "in_stock"⟩, ⟨2, "in_stock"⟩, ⟨3, "in_stock"⟩, ⟨4, "out_of_stock"⟩]
      noMapping ⟨true, 0⟩).in_stock = false ∧
    (normalize [⟨1, "in_stock"⟩, ⟨2, "in_stock"⟩, ⟨3, "in_stock"⟩, ⟨4, "out_of_stock"⟩]
      noMapping ⟨true, 0⟩).available_sizes.length = 3 ∧
    (normalize [⟨1, "in_stock"⟩, ⟨2, "in_stock"⟩, ⟨3, "out_of_stock"⟩]
      noMapping ⟨false, 3⟩).in_stock = false := by
  have h4 := c3_policy_knobs
    [⟨1, "in_stock"⟩, ⟨2, "in_stock"⟩, ⟨3, "in_stock"⟩, ⟨4, "out_of_stock"⟩]
    noMapping ⟨true, 0⟩
  have h3 := c3_policy_knobs
    [⟨1, "in_stock"⟩, ⟨2, "in_stock"⟩, ⟨3, "out_of_stock"⟩]
    noMapping ⟨false, 3⟩
  refine ⟨h4.1 rfl (by decide), ?_, h3.2.1 (Or.inl rfl) (by decide) (by decide)⟩
  rw [h4.2.2]
  decide

/-- Helper: the code-point lexicographic comparison is total. -/
theorem charsLe_total : ∀ as bs : List Char,
    charsLe as bs = true ∨ charsLe bs as = true := by
  intro as
  induction as with
  | nil => intro bs; left; rfl
  | cons a as ih =>
    intro bs
    cases bs with
    | nil => right; rfl
    | cons b bs =>
      by_cases hab : a = b
      · subst hab
        rcases ih bs with h | h
        · left; simp [charsLe, h]
        · right; simp [charsLe, h]
      · rcases lt_trichotomy a b with h | h | h
        · left; simp [charsLe, hab, h]
        · exact absurd h hab
        · right
          have hba : b ≠ a := fun heq => hab heq.symm
          simp [charsLe, hba, h]

/-- Helper: the code-point lexicographic comparison is transitive. -/
theorem charsLe_trans : ∀ as bs cs : List Char,
    charsLe as bs = true → charsLe bs cs = true → charsLe as cs = true := by
  intro as
  induction as with
  | nil => intro bs cs _ _; rfl
  | cons a as ih =>
    intro bs cs h1 h2
    cases bs with
    | nil => simp [charsLe] at h1
    | cons b bs =>
      cases cs with
      | nil => simp [charsLe] at h2
      | cons c cs =>
        by_cases hab : a = b
        · subst hab
          by_cases hac : a = c
          · subst hac
            simp only [charsLe, if_pos rfl] at h1 h2 ⊢
            exact ih bs cs h1 h2
          · simp only [charsLe, if_pos rfl] at h1
            simp only [charsLe, if_neg hac] at h2 ⊢
            exact h2
        · by_cases hbc : b = c
          · subst hbc
            simp only [charsLe, if_neg hab] at h1 ⊢
            exact h1
          · simp only [charsLe, if_neg hab, decide_eq_true_eq] at h1
            simp only [charsLe, if_neg hbc, decide_eq_true_eq] at h2
            have hac : a < c := lt_trans h1 h2
            simp [charsLe, ne_of_lt hac, hac]

/-- Helper: `pySorted` output is alphabetically sorted. -/
theorem pySorted_sorted (l : List String) : List.Sorted alphaLe (pySorted l) :=
  @List.sorted_insertionSort String alphaLe _
    ⟨fun a b => charsLe_total a.data b.data⟩
    ⟨fun a b c => charsLe_trans a.data b.data c.data⟩ l

/-- C4 counterexample: an HTML-parsing-path result whose `available_sizes`
is not alphabetically sorted — `parse_stock_info` emits the size labels in
document-extraction order (`[s['size'] for s in sizes]`, line 1086), so a
page listing "S" before "M" yields the unsorted list `["S", "M"]`. -/
theorem c4_counterexample :
    ¬ List.Sorted alphaLe
      (parse_stock_info_result ⟨["S", "M"], false, false⟩).available_sizes := by
  decide

/-- C4 amended: on the API path `available_sizes` is sorted alphabetically
(`sorted(available_sizes)`, line 521); on the HTML-parsing path, when no
explicit out-of-stock override clears them, `available_sizes` is exactly
the extracted size list in document order, which need not be sorted. -/
theorem c4_amended (skus : List SkuInfo) (mapping : Nat → Option String)
    (policy : Policy) (st : HtmlParseState) :
    List.Sorted alphaLe (normalize skus mapping policy).available_sizes ∧
    (st.out_of_stock_detected = false →
      (parse_stock_info_result st).available_sizes = st.sizes) := by
  constructor
  · rw [normalize_available_sizes]
    exact pySorted_sorted _
  · intro h
    unfold parse_stock_info_result
    rw [h]
    simp only [Bool.false_eq_true, if_false]
    by_cases hf : st.few_items_left = true ∧ st.sizes = [] <;> simp [hf]

/-- C4 witness: the amended theorem applied to a one-SKU API check and to
the HTML parse state extracting "S" then "M". -/
theorem c4_witness :
    List.Sorted alphaLe
      (normalize [⟨1, "in_stock"⟩] noMapping defaultPolicy).available_sizes ∧
    (parse_stock_info_result ⟨["S", "M"], false, false⟩).available_sizes
      = ["S", "M"] := by
  have h := c4_amended [⟨1, "in_stock"⟩] noMapping defaultPolicy
    ⟨["S", "M"], false, false⟩
  exact ⟨h.1, h.2 rfl⟩

/-- C5: the positional fallback maps exactly the given SKU ids, taken in
ascending order, to the canonical label at each position (`XS, S, M, ...`,
then numeric sizes, then `Size N` past the sequence); in particular SKU
ids [300, 100, 200] map to 100 → "XS", 200 → "S", 300 → "M". -/
theorem c5_positional_fallback (skuIds : List Nat) :
    (fallbackSizeMapping skuIds).map Prod.fst =
      List.insertionSort (· ≤ ·) skuIds ∧
    List.Sorted (· ≤ ·) ((fallbackSizeMapping skuIds).map Prod.fst) ∧
    ((fallbackSizeMapping skuIds).map Prod.fst).Perm skuIds ∧
    (∀ i, (h : i < (fallbackSizeMapping skuIds).length) →
      ((fallbackSizeMapping skuIds).get ⟨i, h⟩).2 = positionalLabel i) ∧
    fallbackSizeMapping [300, 100, 200] =
      [(100, "XS"), (200, "S"), (300, "M")] := by
  have hfst : (fallbackSizeMapping skuIds).map Prod.fst =
      List.insertionSort (· ≤ ·) skuIds := by
    unfold fallbackSizeMapping
    rw [List.map_map]
    have : (Prod.fst ∘ fun p : Nat × Nat => (p.2, positionalLabel p.1)) =
        Prod.snd := by
      funext p
      rfl
    rw [this, List.enum_map_snd]
  refine ⟨hfst, ?_, ?_, ?_, by decide⟩
  · rw [hfst]
    exact List.sorted_insertionSort _ _
  · rw [hfst]
    exact List.perm_insertionSort _ _
  · intro i h
    unfold fallbackSizeMapping at h ⊢
    rw [List.get_eq_getElem, List.getElem_map, List.getElem_enum]

/-- C5 witness: the theorem applied to the SKU ids [300, 100, 200],
including the positional-label fact at position 0. -/
theorem c5_witness :
    ((fallbackSizeMapping [300, 100, 200]).get ⟨0, by decide⟩).2 =
      positionalLabel 0 ∧
    fallbackSizeMapping [300, 100, 200] =
      [(100, "XS"), (200, "S"), (300, "M")] := by
  have h := c5_positional_fallback [300, 100, 200]
  exact ⟨h.2.2.2.1 0 (by decide), h.2.2.2.2⟩

/-- Helper: the delivery loop, generalized over the fold accumulator. -/
theorem sendLoop_go (deliver : String → DeliveryOutcome)
    (chatIds : List String) (n : Nat) (acc : List String) :
    chatIds.foldl
      (fun acc cid =>
        match attemptSend (deliver cid) with
        | .ok true => (acc.1 + 1, acc.2 ++ [cid])
        | .ok false => (acc.1, acc.2 ++ [cid])
        | .error _ => (acc.1, acc.2 ++ [cid]))
      (n, acc) =
    (n + chatIds.countP (fun cid => decide (deliver cid = .okTrue)),
     acc ++ chatIds) := by
  induction chatIds generalizing n acc with
  | nil => simp
  | cons head tail ih =>
    simp only [List.foldl_cons]
    cases hd : deliver head
    · show List.foldl _ (n, acc ++ [head]) tail = _
      rw [ih]
      simp [List.countP_cons, hd]
    · show List.foldl _ (n, acc ++ [head]) tail = _
      rw [ih]
      simp [List.countP_cons, hd]
    · show List.foldl _ (n + 1, acc ++ [head]) tail = _
      rw [ih]
      simp only [List.countP_cons, hd, decide_eq_true_eq, Prod.mk.injEq,
        List.append_assoc, List.singleton_append]
      constructor
      · simp
        omega
      · simp

/-- C6: the delivery loop attempts every recipient in order, a raised
delivery exception is caught so the remaining recipients are still
attempted and nothing escapes to the caller, and the computed success
count is the number of recipients whose send returned `ok = true`; in the
concrete three-recipient scenario where the send to "B" raises, all three
are attempted and the success count is 2. -/
theorem c6_dispatcher_independent_delivery
    (deliver : String → DeliveryOutcome) (chatIds : List String) :
    (sendLoop deliver chatIds).2 = chatIds ∧
    (sendLoop deliver chatIds).1 =
      chatIds.countP (fun cid => decide (deliver cid = .okTrue)) ∧
    send_telegram_notification ⟨true, "123:token", "", ["A", "B", "C"]⟩
      sampleInStockResult threeRecipientDeliver = (2, ["A", "B", "C"]) := by
  have h := sendLoop_go deliver chatIds 0 []
  unfold sendLoop
  rw [h]
  exact ⟨by simp, by simp, by decide⟩

/-- C7: a reference whose every fetch strategy fails yields the error
result with `error` set, `in_stock = false` and null `name`/`price`
(no exception), and neither implementation ever runs a strategy more than
once within one `check_stock` call. -/
theorem c7_exhausted_strategies (url : String) (parse : String → StockResult)
    (apiResult : Option StockResult) (htmlFetch : Option String) :
    (check_stock url none none parse).1 = failedFetchResult url ∧
    (failedFetchResult url).error.isSome = true ∧
    (failedFetchResult url).in_stock = false ∧
    (failedFetchResult url).name = none ∧
    (failedFetchResult url).price = none ∧
    (check_stock url apiResult htmlFetch parse).2.1 ≤ 1 ∧
    (check_stock url apiResult htmlFetch parse).2.2 ≤ 1 ∧
    (rn_check_stock url none).1 = failedFetchResult url ∧
    (rn_check_stock url apiResult).2 ≤ 1 := by
  refine ⟨rfl, rfl, rfl, rfl, rfl, ?_, ?_, rfl, ?_⟩
  · cases apiResult
    · cases htmlFetch <;> simp [check_stock]
    · simp [check_stock]
  · cases apiResult
    · cases htmlFetch <;> simp [check_stock]
    · simp [check_stock]
  · cases apiResult <;> simp [rn_check_stock]

/-- C8: a non-200 HTTP status from the availability API makes the API
strategy return `None` (a recoverable failure), upon which `check_stock`
runs the HTML fetch strategy exactly once; the check still returns an
ordinary result value. -/
theorem c8_non200_fallback (statusCode : Nat) (parsed : Option StockResult)
    (url : String) (htmlFetch : Option String)
    (parse : String → StockResult) :
    statusCode ≠ 200 →
    apiStatusGate statusCode parsed = none ∧
    (check_stock url (apiStatusGate statusCode parsed) htmlFetch parse).2.2
      = 1 := by
  intro h
  have hg : apiStatusGate statusCode parsed = none := by
    simp [apiStatusGate, h]
  refine ⟨hg, ?_⟩
  rw [hg]
  cases htmlFetch <;> simp [check_stock]

/-- C8 witness: the theorem applied to an HTTP 500 response. -/
theorem c8_witness :
    apiStatusGate 500 (some sampleInStockResult) = none ∧
    (check_stock "https://www.zara.com/uk/en/coat-p1.html"
      (apiStatusGate 500 (some sampleInStockResult)) (some "<html></html>")
      (fun _ => sampleInStockResult)).2.2 = 1 :=
  c8_non200_fallback 500 (some sampleInStockResult)
    "https://www.zara.com/uk/en/coat-p1.html" (some "<html></html>")
    (fun _ => sampleInStockResult) (by decide)

/-- C9 counterexample: a browser-path fetch whose page-load operation
persistently fails with the dead-driver message "no such window" performs
three handle recreations — `_safe` recreates once, the outer handler of
`fetch_product_page` recreates again and reruns the fetch with
`retry=False`, inside which `_safe` recreates a third time — before the
fetch failure (`None`) is reported, refuting "recreated and the operation
retried exactly once; a second dead-handle failure ... surfaced as a
fetch failure without further handle recreation". -/
theorem c9_counterexample :
    fetch_product_page persistentlyDeadOracles = (none, 3) := by decide

/-- C9 amended: within one `_safe` invocation a dead-handle failure causes
exactly one handle recreation and one retry whose outcome is final there,
and a non-matching failure is surfaced with no recreation; but
`fetch_product_page` adds an outer handler that, on a dead-handle error
escaping `_safe`, recreates the handle once more and reruns the whole
fetch with `retry = False`, so a persistently dead page-load operation
runs four times (handle incarnations 0-3) with three handle recreations
before the fetch failure is reported; a page-load error not matching the
indicators is surfaced as a fetch failure with no recreation, and a
single dead-handle failure cured by the `_safe`-level recreation lets the
fetch succeed after exactly one recreation. -/
theorem c9_amended_dead_driver_retry {α : Type} (run : Nat → Except String α)
    (o : BrowserOracles) (e : String) (src : String) (a : α) :
    (run 0 = .error e → is_dead_driver_error e = true →
      safe_run run = (run 1, 1)) ∧
    (run 0 = .error e → is_dead_driver_error e = false →
      safe_run run = (.error e, 0)) ∧
    (run 0 = .ok a → safe_run run = (.ok a, 0)) ∧
    ((∀ k, o.setTimeoutRun k = .ok ()) → (∀ k, o.getRun k = .error e) →
      is_dead_driver_error e = true →
      fetch_product_page o = (none, 3)) ∧
    (o.setTimeoutRun 0 = .ok () → o.getRun 0 = .error e →
      is_dead_driver_error e = false →
      fetch_product_page o = (none, 0)) ∧
    (o.setTimeoutRun 0 = .ok () → o.getRun 0 = .error e →
      is_dead_driver_error e = true → o.getRun 1 = .ok () →
      o.pageSourceRun 1 = .ok src → ¬ src.length < 100 →
      fetch_product_page o = (some src, 1)) ∧
    is_dead_driver_error
      "Message: no such window: target window already closed" = true ∧
    is_dead_driver_error "Message: element not interactable" = false := by
  refine ⟨?_, ?_, ?_, ?_, ?_, ?_, by decide, by decide⟩
  · intro h0 hd
    unfold safe_run
    rw [h0]
    simp [hd]
  · intro h0 hd
    unfold safe_run
    rw [h0]
    simp [hd]
  · intro h0
    unfold safe_run
    rw [h0]
  · intro hst hget hd
    simp [fetch_product_page, fetch_page_go, safe_run_from, hst, hget, hd]
  · intro hst hget hd
    simp [fetch_product_page, fetch_page_go, safe_run_from, hst, hget, hd]
  · intro hst hget0 hd hget1 hsrc hlen
    simp [fetch_product_page, fetch_page_go, safe_run_from, hst, hget0, hd,
      hget1, hsrc, hlen]

set_option maxRecDepth 4000 in
/-- C9 witness: the amended theorem applied to the persistently dead
page-load oracles (three recreations, then fetch failure) and to the
once-flaky oracles (one recreation, then success). -/
theorem c9_amended_witness :
    fetch_product_page persistentlyDeadOracles = (none, 3) ∧
    fetch_product_page flakyThenOkOracles = (some longPageSource, 1) := by
  have h1 := c9_amended_dead_driver_retry (fun _ => Except.error "x")
    persistentlyDeadOracles "no such window" longPageSource ()
  have h2 := c9_amended_dead_driver_retry (fun _ => Except.error "x")
    flakyThenOkOracles "no such window" longPageSource ()
  exact ⟨h1.2.2.2.1 (fun _ => rfl) (fun _ => rfl) (by decide),
    h2.2.2.2.2.2.1 rfl rfl (by decide) rfl rfl (by decide)⟩

/-- C10: a check result carrying an `error` field produces no delivery
attempt at all in either dispatcher implementation: both return before
contacting the messaging API for any recipient. -/
theorem c10_error_skips_notification (cfg : TelegramConfig)
    (skipNoStock : Bool) (info : StockResult)
    (deliver : String → DeliveryOutcome) :
    info.error.isSome = true →
    send_telegram_notification cfg info deliver = (0, []) ∧
    rn_send_telegram_notification cfg skipNoStock info deliver = (0, []) := by
  intro h
  constructor
  · unfold send_telegram_notification
    split_ifs <;> simp_all
  · unfold rn_send_telegram_notification
    split_ifs <;> simp_all

/-- C10 witness: the theorem applied to the failed-fetch error result with
Telegram enabled, a bot token and a configured chat id. -/
theorem c10_witness :
    send_telegram_notification ⟨true, "123:token", "A", []⟩
      (failedFetchResult "u") threeRecipientDeliver = (0, []) ∧
    rn_send_telegram_notification ⟨true, "123:token", "A", []⟩ false
      (failedFetchResult "u") threeRecipientDeliver = (0, []) :=
  c10_error_skips_notification ⟨true, "123:token", "A", []⟩ false
    (failedFetchResult "u") threeRecipientDeliver (by decide)

end ZaraStock
